import Mathlib

/-!
Verification of the managed external process lifecycle module
(`ai_diffusion/util.py`): environment sanitization, platform spawn policy,
stream wiring of `create_process`, job-object attachment, and the
long-path archive extractor (`LongPathZipFile`).

Python dictionaries are embedded as association lists with Python `dict`
semantics (`envGet` = `d[k]` lookup, `envSet` = `d[k] = v`, `envUpdate` =
`d.update(o)`, `envErase` = `del d[k]`, `envContains` = `k in d`).
Python strings used as filesystem paths are embedded as `List Char`.
-/

/-- A Python `dict[str, str]` environment mapping, as an association list. -/
abbrev Env := List (String × String)

/-- Python `d[k]` lookup (a Python dict has unique keys; the first binding wins). -/
def envGet : Env → String → Option String
  | [], _ => none
  | p :: t, k => if p.1 == k then some p.2 else envGet t k

/-- Python `k in d`. -/
def envContains : Env → String → Bool
  | [], _ => false
  | p :: t, k => p.1 == k || envContains t k

/-- Python `d[k] = v`: replace the existing binding in place, else append. -/
def envSet : Env → String → String → Env
  | [], k, v => [(k, v)]
  | p :: t, k, v => if p.1 == k then (k, v) :: t else p :: envSet t k v

/-- Python `d.update(o)`: set every binding of `o` on `d`, in order. -/
def envUpdate (e o : Env) : Env :=
  o.foldl (fun acc p => envSet acc p.1 p.2) e

/-- Python `del d[k]` (as a total operation on the association list). -/
def envErase : Env → String → Env
  | [], _ => []
  | p :: t, k => if p.1 == k then envErase t k else p :: envErase t k

/-- The Python-dict invariant: keys are pairwise distinct. -/
def envWf (e : Env) : Prop := (e.map Prod.fst).Nodup

/-- Environment sanitization performed by `create_process`
(util.py lines 174-178): copy the host environment, apply the overrides
if they are truthy (non-`None` and non-empty), then delete `PYTHONPATH`
if present. -/
def sanitize_env (base : Env) (additional_env : Option Env) : Env :=
  let env := base
  let env :=
    match additional_env with
    | none => env
    | some o => if o.isEmpty then env else envUpdate env o
  if envContains env "PYTHONPATH" then envErase env "PYTHONPATH" else env

-- Basic lemmas about the dict embedding

theorem envGet_eq_none_of_not_contains (e : Env) (k : String)
    (h : envContains e k = false) : envGet e k = none := by
  induction e with
  | nil => rfl
  | cons a t ih =>
    simp only [envContains, Bool.or_eq_false_iff] at h
    simp only [envGet, h.1, Bool.false_eq_true, if_false]
    exact ih h.2

theorem envGet_envErase_self (e : Env) (k : String) :
    envGet (envErase e k) k = none := by
  induction e with
  | nil => rfl
  | cons a t ih =>
    by_cases h : a.1 = k
    · simp [envErase, h, ih]
    · simp [envErase, h, envGet, ih]

theorem envGet_envErase_ne (e : Env) (k k' : String) (h : k' ≠ k) :
    envGet (envErase e k) k' = envGet e k' := by
  induction e with
  | nil => rfl
  | cons a t ih =>
    by_cases h1 : a.1 = k
    · have h2 : ¬a.1 = k' := by rw [h1]; exact Ne.symm h
      simp [envErase, h1, envGet, h2, ih, Ne.symm h]
    · by_cases h2 : a.1 = k'
      · simp [envErase, h1, envGet, h2, h]
      · simp [envErase, h1, envGet, h2, ih]

theorem envGet_envSet_self (e : Env) (k v : String) :
    envGet (envSet e k v) k = some v := by
  induction e with
  | nil => simp [envSet, envGet]
  | cons a t ih =>
    by_cases h : a.1 = k
    · simp [envSet, h, envGet]
    · simp [envSet, h, envGet, ih]

theorem envGet_envSet_ne (e : Env) (k v : String) (k' : String) (h : k' ≠ k) :
    envGet (envSet e k v) k' = envGet e k' := by
  induction e with
  | nil => simp [envSet, envGet, Ne.symm h]
  | cons a t ih =>
    by_cases h1 : a.1 = k
    · have h2 : ¬a.1 = k' := by rw [h1]; exact Ne.symm h
      simp [envSet, h1, envGet, h2, Ne.symm h]
    · by_cases h2 : a.1 = k'
      · simp [envSet, h1, envGet, h2, h]
      · simp [envSet, h1, envGet, h2, ih]

theorem envUpdate_cons (e : Env) (a : String × String) (t : Env) :
    envUpdate e (a :: t) = envUpdate (envSet e a.1 a.2) t := by
  simp [envUpdate]

theorem envGet_envUpdate_not_contains (o : Env) (e : Env) (k : String)
    (h : envContains o k = false) :
    envGet (envUpdate e o) k = envGet e k := by
  induction o generalizing e with
  | nil => rfl
  | cons a t ih =>
    simp only [envContains, Bool.or_eq_false_iff] at h
    rw [envUpdate_cons, ih (envSet e a.1 a.2) h.2]
    exact envGet_envSet_ne e a.1 a.2 k (by
      intro hk
      rw [hk] at h
      simp at h)

theorem mem_keys_of_envContains (e : Env) (k : String)
    (h : envContains e k = true) : k ∈ e.map Prod.fst := by
  induction e with
  | nil => simp [envContains] at h
  | cons a t ih =>
    simp only [envContains, Bool.or_eq_true] at h
    rcases h with ha | ht
    · simp [← beq_iff_eq.mp ha]
    · simp only [List.map_cons, List.mem_cons]
      exact Or.inr (ih ht)

theorem envGet_envUpdate_contains (o : Env) (e : Env) (k : String) (v : String)
    (hwf : envWf o) (h : envGet o k = some v) :
    envGet (envUpdate e o) k = some v := by
  induction o generalizing e with
  | nil => simp [envGet] at h
  | cons a t ih =>
    rw [envUpdate_cons]
    by_cases ha : a.1 = k
    · have hv : a.2 = v := by
        simp [envGet, ha] at h
        exact h
      have ht : envContains t k = false := by
        unfold envWf at hwf
        rw [List.map_cons, List.nodup_cons] at hwf
        by_contra hc
        rw [Bool.not_eq_false] at hc
        rw [ha] at hwf
        exact hwf.1 (mem_keys_of_envContains t k hc)
      rw [envGet_envUpdate_not_contains t (envSet e a.1 a.2) k ht, ha, ← hv]
      exact envGet_envSet_self e k a.2
    · have ht : envGet t k = some v := by
        simp only [envGet] at h
        have hne : (a.1 == k) = false := by simp [ha]
        rw [hne] at h
        simpa using h
      have hwt : envWf t := by
        unfold envWf at hwf ⊢
        rw [List.map_cons, List.nodup_cons] at hwf
        exact hwf.2
      exact ih (envSet e a.1 a.2) hwt ht

theorem envContains_iff_envGet_isSome (e : Env) (k : String) :
    envContains e k = true ↔ (envGet e k).isSome = true := by
  induction e with
  | nil => simp [envContains, envGet]
  | cons a t ih =>
    by_cases h : a.1 = k
    · simp [envContains, envGet, h]
    · simp [envContains, envGet, h, ih]

-- Platform identity (util.py lines 18-20)

/-- util.py line 18: `is_windows = sys.platform.startswith("win")`
(Python `str.startswith` is character-sequence prefix). -/
def is_windows (platform : String) : Bool := "win".data.isPrefixOf platform.data

/-- util.py line 19: `is_macos = sys.platform == "darwin"`. -/
def is_macos (platform : String) : Bool := platform == "darwin"

/-- util.py line 20: `is_linux = not is_windows and not is_macos`. -/
def is_linux (platform : String) : Bool := !is_windows platform && !is_macos platform

-- Parent-death-signal hook (util.py lines 151-158)

/-- The `prctl` option number `PR_SET_PDEATHSIG` (the literal `1` in util.py line 158). -/
def PR_SET_PDEATHSIG : Nat := 1

/-- The POSIX `SIGTERM` signal number used in util.py line 158. -/
def SIGTERM : Nat := 15

/-- A call to `libc.prctl(op, arg)`, as made by the pre-exec hook. -/
structure PrctlCall where
  op : Nat
  arg : Nat
deriving DecidableEq

/-- util.py line 157-158: `set_pdeathsig` performs `libc.prctl(1, signal.SIGTERM)`. -/
def set_pdeathsig : PrctlCall := { op := PR_SET_PDEATHSIG, arg := SIGTERM }

-- Platform spawn policy (util.py lines 168-172)

/-- `subprocess.CREATE_NO_WINDOW`, the Windows creation flag suppressing a
visible console window for the child. -/
def CREATE_NO_WINDOW : Nat := 134217728

/-- The platform-specific keyword arguments `platform_args` built by
`create_process`: an optional `creationflags` value and an optional
`preexec_fn` hook (represented by the prctl call it performs). -/
structure PlatformArgs where
  creationflags : Option Nat
  preexec_fn : Option PrctlCall
deriving DecidableEq

/-- util.py lines 168-172: start from no extra options, add
`creationflags = subprocess.CREATE_NO_WINDOW` on Windows, and add
`preexec_fn = set_pdeathsig` on Linux. -/
def platform_args (platform : String) : PlatformArgs :=
  let pa : PlatformArgs := { creationflags := none, preexec_fn := none }
  let pa := if is_windows platform then
    { pa with creationflags := some CREATE_NO_WINDOW } else pa
  let pa := if is_linux platform then
    { pa with preexec_fn := some set_pdeathsig } else pa
  pa

-- Launch requests and the spawn call (util.py lines 161-190)

/-- A stream disposition constant of `asyncio.subprocess`:
`PIPE` (capture as a readable stream) or `STDOUT` (merge into stdout). -/
inductive StdOpt where
  | PIPE
  | STDOUT
deriving DecidableEq

/-- The caller-visible launch request of `create_process`
(util.py lines 161-166). -/
structure LaunchRequest where
  program : String
  args : List String
  cwd : Option String
  additional_env : Option Env
  pipe_stderr : Bool

/-- The single OS spawn invocation `asyncio.create_subprocess_exec(...)`
made by `create_process` (util.py lines 183-185), with every argument it
passes. `stdin` is `none` because the source passes no `stdin` keyword:
no input pipe from the host to the child is created. -/
structure SpawnCall where
  program : String
  args : List String
  cwd : Option String
  stdin : Option StdOpt
  stdout : StdOpt
  stderr : StdOpt
  env : Env
  creationflags : Option Nat
  preexec_fn : Option PrctlCall

/-- The process handle returned on a successful spawn. -/
structure ProcessHandle where
  pid : Nat
deriving DecidableEq

/-- Modelled from the spec: the process-wide Job Object state owned by the
`win32` module (not part of this source file). `job` is the lazily created
job handle (`none` until first use), `created` counts how many job objects
were ever created, `attached` lists the pids attached so far. -/
structure JobState where
  job : Option Nat
  created : Nat
  attached : List Nat
deriving DecidableEq

/-- The job state before any launch: no job object exists. -/
def JobState.init : JobState := { job := none, created := 0, attached := [] }

/-- Modelled from the spec: `win32.attach_process_to_job(pid)` — lazily
creates the process-wide Job Object on first call and adds the child to it;
later calls attach to the existing job. Per the spec, creation-on-first-use
is mutually exclusive across concurrent launches, so each call is one
atomic step. -/
def attach_process_to_job (s : JobState) (pid : Nat) : JobState :=
  match s.job with
  | none =>
    { job := some s.created, created := s.created + 1, attached := s.attached ++ [pid] }
  | some j =>
    { job := some j, created := s.created, attached := s.attached ++ [pid] }

/-- The host-process state threaded through a launch: the host's actual
environment `os.environ` and the process-wide job state. -/
structure World where
  environ : Env
  job : JobState

/-- The arguments `create_process` passes to its single
`asyncio.create_subprocess_exec` call (util.py lines 168-185): the
platform spawn policy, the sanitized environment, `stdout` always `PIPE`,
`stderr` either `PIPE` or merged via `STDOUT`, and no `stdin` keyword. -/
def spawn_call (platform : String) (base_env : Env) (req : LaunchRequest) : SpawnCall :=
  let pargs := platform_args platform
  let env := sanitize_env base_env req.additional_env
  let out := StdOpt.PIPE
  let err := if req.pipe_stderr then StdOpt.PIPE else StdOpt.STDOUT
  { program := req.program
    args := req.args
    cwd := req.cwd
    stdin := none
    stdout := out
    stderr := err
    env := env
    creationflags := pargs.creationflags
    preexec_fn := pargs.preexec_fn }

/-- util.py lines 161-190: `create_process`. The OS spawn primitive is the
parameter `os_spawn`; it is invoked exactly once, on `spawn_call`. A spawn
failure propagates unchanged (the source has no try/except and no retry).
On success on Windows the child is attached to the process-wide job before
the handle is returned. -/
def create_process (platform : String) (w : World) (req : LaunchRequest)
    (os_spawn : SpawnCall → Except String ProcessHandle) :
    World × Except String ProcessHandle :=
  let call := spawn_call platform w.environ req
  match os_spawn call with
  | Except.error e => (w, Except.error e)
  | Except.ok p =>
    if is_windows platform then
      ({ w with job := attach_process_to_job w.job p.pid }, Except.ok p)
    else
      (w, Except.ok p)

-- Long-path archive extraction (util.py lines 193-206)

/-- A Python `str` used as a filesystem path, as its character sequence. -/
abbrev PyStr := List Char

/-- The literal `"\\\\"` of util.py line 199: two backslashes. -/
def bslash2 : PyStr := ['\\', '\\']

/-- The extended-length marker `\\?\` prepended in util.py line 202. -/
def lp_ext : PyStr := ['\\', '\\', '?', '\\']

/-- The UNC extended-length marker `\\?\UNC\` of util.py line 200. -/
def lp_unc : PyStr := ['\\', '\\', '?', '\\', 'U', 'N', 'C', '\\']

/-- util.py lines 199-202: the path rewrite applied to the absolute
`targetpath`: a UNC path `\\server\...` becomes `\\?\UNC\server\...`
(the leading two backslashes replaced), any other absolute path gets
`\\?\` prepended. -/
def longPathTarget (t : PyStr) : PyStr :=
  if bslash2.isPrefixOf t then lp_unc ++ t.drop 2 else lp_ext ++ t

/-- The delegated call `super()._extract_member(member, targetpath, pwd)`
(util.py line 203), with the arguments it receives. `member` is an opaque
archive-entry identifier. -/
structure ExtractCall where
  member : Nat
  targetpath : PyStr
  pwd : Option PyStr

/-- util.py lines 196-203: `LongPathZipFile._extract_member` takes the OS
`os.path.abspath` function as environment, rewrites the destination path,
and delegates to the standard extractor with the member and pwd unchanged. -/
def LongPathZipFile.extract_member (abspath : PyStr → PyStr)
    (member : Nat) (targetpath : PyStr) (pwd : Option PyStr) : ExtractCall :=
  let t := abspath targetpath
  let t := if bslash2.isPrefixOf t then lp_unc ++ t.drop 2 else lp_ext ++ t
  { member := member, targetpath := t, pwd := pwd }

/-- The exported archive extractor: either the long-path specialization or
the standard, unmodified `zipfile.ZipFile`. -/
inductive Extractor where
  | longPathZipFile
  | zipfileZipFile
deriving DecidableEq

/-- util.py line 206: `ZipFile = LongPathZipFile if is_windows else zipfile.ZipFile`. -/
def ZipFile (platform : String) : Extractor :=
  if is_windows platform then Extractor.longPathZipFile else Extractor.zipfileZipFile

-- Helper lemmas about sanitize_env and the spawn call

theorem envGet_pythonpath_guard (env : Env) :
    envGet (if envContains env "PYTHONPATH" then envErase env "PYTHONPATH" else env)
      "PYTHONPATH" = none := by
  by_cases h : envContains env "PYTHONPATH" = true
  · rw [if_pos h]
    exact envGet_envErase_self env "PYTHONPATH"
  · rw [if_neg h]
    exact envGet_eq_none_of_not_contains env "PYTHONPATH" (by simpa using h)

theorem envGet_guard_ne (env : Env) (k : String) (h : k ≠ "PYTHONPATH") :
    envGet (if envContains env "PYTHONPATH" then envErase env "PYTHONPATH" else env) k
      = envGet env k := by
  by_cases hc : envContains env "PYTHONPATH" = true
  · rw [if_pos hc]
    exact envGet_envErase_ne env "PYTHONPATH" k h
  · rw [if_neg hc]

theorem sanitize_env_no_pythonpath (base : Env) (additional_env : Option Env) :
    envGet (sanitize_env base additional_env) "PYTHONPATH" = none := by
  unfold sanitize_env
  exact envGet_pythonpath_guard _

theorem sanitize_env_override_wins (base o : Env) (k : String)
    (hwf : envWf o) (hk : k ≠ "PYTHONPATH") (hc : envContains o k = true) :
    envGet (sanitize_env base (some o)) k = envGet o k := by
  rcases Option.isSome_iff_exists.mp ((envContains_iff_envGet_isSome o k).mp hc)
    with ⟨v, hv⟩
  have hne : o.isEmpty = false := by
    cases o with
    | nil => simp [envContains] at hc
    | cons a t => rfl
  unfold sanitize_env
  simp only [hne, Bool.false_eq_true, if_false]
  rw [envGet_guard_ne _ k hk, envGet_envUpdate_contains o base k v hwf hv, hv]

theorem spawn_call_env (platform : String) (base_env : Env) (req : LaunchRequest) :
    (spawn_call platform base_env req).env = sanitize_env base_env req.additional_env := rfl

-- Claim theorems

/-- C1: for every base environment mapping and every override mapping, the
child environment produced by `create_process` never contains the key
`PYTHONPATH`; in particular, for overrides
`{"PYTHONPATH": "", "MODE": "prod"}` on a host with `PYTHONPATH=/host/libs`,
the sanitized environment has no `PYTHONPATH` key and maps `MODE` to
`"prod"`. -/
theorem spec_C1_no_pythonpath :
    (∀ (platform : String) (base_env : Env) (req : LaunchRequest),
      envGet (spawn_call platform base_env req).env "PYTHONPATH" = none)
    ∧ envGet (spawn_call "linux" [("PYTHONPATH", "/host/libs")]
        { program := "worker", args := ["--port", "9000"], cwd := none,
          additional_env := some [("PYTHONPATH", ""), ("MODE", "prod")],
          pipe_stderr := false }).env "PYTHONPATH" = none
    ∧ envGet (spawn_call "linux" [("PYTHONPATH", "/host/libs")]
        { program := "worker", args := ["--port", "9000"], cwd := none,
          additional_env := some [("PYTHONPATH", ""), ("MODE", "prod")],
          pipe_stderr := false }).env "MODE" = some "prod" := by
  refine ⟨fun platform base_env req => ?_, by decide, by decide⟩
  rw [spawn_call_env]
  exact sanitize_env_no_pythonpath base_env req.additional_env

/-- C2, counterexample: the claim fails for the key `PYTHONPATH` itself.
With base `{"PYTHONPATH": "/host/libs"}` and overrides `{"PYTHONPATH": ""}`,
the key is present in both, the override value is `""`, yet the sanitized
environment does not map it to the override value: it has no such key. -/
theorem spec_C2_counterexample :
    envContains [(("PYTHONPATH" : String), ("/host/libs" : String))] "PYTHONPATH" = true
    ∧ envContains [(("PYTHONPATH" : String), ("" : String))] "PYTHONPATH" = true
    ∧ envGet [(("PYTHONPATH" : String), ("" : String))] "PYTHONPATH" = some ""
    ∧ envGet (sanitize_env [("PYTHONPATH", "/host/libs")]
        (some [("PYTHONPATH", "")])) "PYTHONPATH" = none
    ∧ envGet (sanitize_env [("PYTHONPATH", "/host/libs")] (some [("PYTHONPATH", "")]))
        "PYTHONPATH"
      ≠ envGet [(("PYTHONPATH" : String), ("" : String))] "PYTHONPATH" := by
  refine ⟨by decide, by decide, by decide, by decide, by decide⟩

/-- C2, amended: for every base mapping, every override mapping with
distinct keys (the Python-dict invariant), and every key `k` other than
`PYTHONPATH` that the overrides contain, the sanitized environment maps
`k` to the override value (overrides win on key collision); `PYTHONPATH`
is the sole exception, being deleted after the merge. -/
theorem spec_C2_overrides_win (base o : Env) (k : String)
    (hwf : envWf o) (hk : k ≠ "PYTHONPATH") (hc : envContains o k = true) :
    envGet (sanitize_env base (some o)) k = envGet o k :=
  sanitize_env_override_wins base o k hwf hk hc

/-- Witness for the amended C2 at a concrete collision: base maps `MODE`
to `dev`, the overrides map it to `prod`, and the sanitized result maps it
to the override value. -/
theorem spec_C2_overrides_win_witness :
    envGet (sanitize_env [("MODE", "dev"), ("PYTHONPATH", "/host/libs")]
      (some [("MODE", "prod")])) "MODE"
      = envGet [(("MODE" : String), ("prod" : String))] "MODE" :=
  spec_C2_overrides_win [("MODE", "dev"), ("PYTHONPATH", "/host/libs")]
    [("MODE", "prod")] "MODE" (by unfold envWf; decide) (by decide) (by decide)

/-- C3: in every launch performed by `create_process`, standard output is
captured as a pipe, and standard error is a separate pipe exactly when
`pipe_stderr` is true, otherwise it is merged into standard output. -/
theorem spec_C3_stream_wiring :
    ∀ (platform : String) (base_env : Env) (req : LaunchRequest),
      (spawn_call platform base_env req).stdout = StdOpt.PIPE
      ∧ ((spawn_call platform base_env req).stderr = StdOpt.PIPE ↔ req.pipe_stderr = true)
      ∧ ((spawn_call platform base_env req).stderr = StdOpt.STDOUT
          ↔ req.pipe_stderr = false) := by
  intro platform base_env req
  cases hb : req.pipe_stderr <;> simp [spawn_call, hb]

/-- C4: the spawn-policy selection is a function of the platform identity
only; on Windows it yields exactly `CREATE_NO_WINDOW` and no pre-exec
hook, on Linux exactly the parent-death-signal pre-exec hook and no
creation flags, and on every other platform (e.g. macOS) no extra
options. -/
theorem spec_C4_platform_args :
    ∀ platform : String,
      platform_args platform =
        if is_windows platform then
          { creationflags := some CREATE_NO_WINDOW, preexec_fn := none }
        else if is_linux platform then
          { creationflags := none, preexec_fn := some set_pdeathsig }
        else
          { creationflags := none, preexec_fn := none } := by
  intro platform
  cases hw : is_windows platform <;> cases hm : is_macos platform <;>
    simp [platform_args, is_linux, hw, hm]

/-- C5: `LongPathZipFile._extract_member` delegates to the standard
extractor with the member and password unchanged — only the literal string
form of the destination path differs — and the path it passes is the
rewritten absolute path: `\\?\UNC\` replacing the leading two backslashes
of a UNC root, `\\?\` prepended otherwise; on every platform that is not
Windows the exported `ZipFile` is the standard, unmodified extractor. -/
theorem spec_C5_long_path_extract :
    (∀ (abspath : PyStr → PyStr) (member : Nat) (targetpath : PyStr)
        (pwd : Option PyStr),
      (LongPathZipFile.extract_member abspath member targetpath pwd).member = member
      ∧ (LongPathZipFile.extract_member abspath member targetpath pwd).pwd = pwd
      ∧ (LongPathZipFile.extract_member abspath member targetpath pwd).targetpath
          = longPathTarget (abspath targetpath))
    ∧ (∀ platform : String,
        ZipFile platform = Extractor.zipfileZipFile ↔ is_windows platform = false)
    ∧ (∀ platform : String,
        ZipFile platform = Extractor.longPathZipFile ↔ is_windows platform = true) := by
  refine ⟨fun abspath member targetpath pwd => ⟨rfl, rfl, rfl⟩, ?_, ?_⟩ <;>
    intro platform <;> cases hw : is_windows platform <;> simp [ZipFile, hw]

/-- C6: when the OS spawn primitive rejects the launch (e.g. the program
path resolves to no executable), `create_process` fails with exactly the
underlying OS error and returns no process handle; it invokes the spawn
primitive once on the spawn call with no internal retry, and every launch
either fails this way or succeeds with a handle. -/
theorem spec_C6_spawn_error_propagates (platform : String) (w : World)
    (req : LaunchRequest) (os_spawn : SpawnCall → Except String ProcessHandle)
    (e : String)
    (h : os_spawn (spawn_call platform w.environ req) = Except.error e) :
    (create_process platform w req os_spawn).2 = Except.error e
    ∧ ∀ g : SpawnCall → Except String ProcessHandle,
        (∃ e2, (create_process platform w req g).2 = Except.error e2)
        ∨ (∃ p, (create_process platform w req g).2 = Except.ok p) := by
  constructor
  · simp only [create_process]
    rw [h]
  · intro g
    cases hg : g (spawn_call platform w.environ req) with
    | error e2 =>
      refine Or.inl ⟨e2, ?_⟩
      simp only [create_process]
      rw [hg]
    | ok p =>
      refine Or.inr ⟨p, ?_⟩
      simp only [create_process]
      rw [hg]
      cases hw : is_windows platform <;> simp [hw]

/-- Witness for C6: a spawn primitive that rejects the program `worker`
with the OS error text makes `create_process` fail with exactly that
error. -/
theorem spec_C6_witness :
    (create_process "linux" { environ := [], job := JobState.init }
      { program := "worker", args := ["--port", "9000"], cwd := none,
        additional_env := none, pipe_stderr := false }
      (fun _ => Except.error "FileNotFoundError: worker")).2
      = Except.error "FileNotFoundError: worker" :=
  (spec_C6_spawn_error_propagates "linux" { environ := [], job := JobState.init }
    { program := "worker", args := ["--port", "9000"], cwd := none,
      additional_env := none, pipe_stderr := false }
    (fun _ => Except.error "FileNotFoundError: worker")
    "FileNotFoundError: worker" rfl).1

/-- C7: in every launch performed by `create_process`, no standard-input
channel from the host to the child is created: the spawn call passes no
`stdin` option. -/
theorem spec_C7_no_stdin :
    ∀ (platform : String) (base_env : Env) (req : LaunchRequest),
      (spawn_call platform base_env req).stdin = none :=
  fun _ _ _ => rfl

/-- C8: environment sanitization is a pure function of the host
environment snapshot and the override mapping (equal inputs give the same
sanitized environment, whatever the platform or the rest of the request),
and a launch leaves the host's actual environment unchanged. -/
theorem spec_C8_env_frame_pure (platform : String) (w : World)
    (req : LaunchRequest) (os_spawn : SpawnCall → Except String ProcessHandle) :
    ((create_process platform w req os_spawn).1).environ = w.environ
    ∧ ∀ (platform2 : String) (w2 : World) (req2 : LaunchRequest),
        w2.environ = w.environ → req2.additional_env = req.additional_env →
        (spawn_call platform2 w2.environ req2).env
          = (spawn_call platform w.environ req).env := by
  constructor
  · simp only [create_process]
    cases hg : os_spawn (spawn_call platform w.environ req) with
    | error e => rfl
    | ok p => cases hw : is_windows platform <;> simp [hw]
  · intro platform2 w2 req2 h1 h2
    rw [spawn_call_env, spawn_call_env, h1, h2]

/-- Witness for C8: a concrete launch on macOS leaves the concrete host
environment unchanged, and a launch with a different platform, program and
stderr flag but the same host snapshot and overrides produces the same
sanitized environment. -/
theorem spec_C8_witness :
    ((create_process "darwin"
      { environ := [("PYTHONPATH", "/host/libs")], job := JobState.init }
      { program := "worker", args := [], cwd := none,
        additional_env := some [("MODE", "prod")], pipe_stderr := true }
      (fun _ => Except.ok { pid := 7 })).1).environ = [("PYTHONPATH", "/host/libs")]
    ∧ (spawn_call "win32" [("PYTHONPATH", "/host/libs")]
        { program := "other", args := ["-v"], cwd := none,
          additional_env := some [("MODE", "prod")], pipe_stderr := false }).env
      = (spawn_call "darwin" [("PYTHONPATH", "/host/libs")]
        { program := "worker", args := [], cwd := none,
          additional_env := some [("MODE", "prod")], pipe_stderr := true }).env :=
  ⟨(spec_C8_env_frame_pure "darwin"
      { environ := [("PYTHONPATH", "/host/libs")], job := JobState.init }
      { program := "worker", args := [], cwd := none,
        additional_env := some [("MODE", "prod")], pipe_stderr := true }
      (fun _ => Except.ok { pid := 7 })).1,
   (spec_C8_env_frame_pure "darwin"
      { environ := [("PYTHONPATH", "/host/libs")], job := JobState.init }
      { program := "worker", args := [], cwd := none,
        additional_env := some [("MODE", "prod")], pipe_stderr := true }
      (fun _ => Except.ok { pid := 7 })).2
    "win32" { environ := [("PYTHONPATH", "/host/libs")], job := JobState.init }
    { program := "other", args := ["-v"], cwd := none,
      additional_env := some [("MODE", "prod")], pipe_stderr := false } rfl rfl⟩

/-- C9: on the platform with job-object supervision, two launches from the
initial job state — each attachment being one atomic step, per the spec's
mutual-exclusion requirement — create exactly one Job Object and attach
both children to it: no duplicate job, no unattached child. -/
theorem spec_C9_single_job (platform : String) (w : World)
    (r1 r2 : LaunchRequest) (f1 f2 : SpawnCall → Except String ProcessHandle)
    (p1 p2 : ProcessHandle)
    (hp : is_windows platform = true)
    (hw : w.job = JobState.init)
    (h1 : ∀ c, f1 c = Except.ok p1) (h2 : ∀ c, f2 c = Except.ok p2) :
    (((create_process platform (create_process platform w r1 f1).1 r2 f2).1).job).created = 1
    ∧ p1.pid ∈
        (((create_process platform (create_process platform w r1 f1).1 r2 f2).1).job).attached
    ∧ p2.pid ∈
        (((create_process platform (create_process platform w r1 f1).1 r2 f2).1).job).attached := by
  simp only [create_process, h1, h2]
  simp [hp, attach_process_to_job, hw, JobState.init]

/-- Witness for C9: two concrete launches on `win32` from the initial job
state yield one created job with both concrete pids attached. -/
theorem spec_C9_single_job_witness :
    (((create_process "win32"
        (create_process "win32" { environ := [], job := JobState.init }
          { program := "worker", args := [], cwd := none,
            additional_env := none, pipe_stderr := false }
          (fun _ => Except.ok { pid := 11 })).1
        { program := "worker2", args := [], cwd := none,
          additional_env := none, pipe_stderr := true }
        (fun _ => Except.ok { pid := 22 })).1).job).created = 1
    ∧ (11 : Nat) ∈
        (((create_process "win32"
        (create_process "win32" { environ := [], job := JobState.init }
          { program := "worker", args := [], cwd := none,
            additional_env := none, pipe_stderr := false }
          (fun _ => Except.ok { pid := 11 })).1
        { program := "worker2", args := [], cwd := none,
          additional_env := none, pipe_stderr := true }
        (fun _ => Except.ok { pid := 22 })).1).job).attached
    ∧ (22 : Nat) ∈
        (((create_process "win32"
        (create_process "win32" { environ := [], job := JobState.init }
          { program := "worker", args := [], cwd := none,
            additional_env := none, pipe_stderr := false }
          (fun _ => Except.ok { pid := 11 })).1
        { program := "worker2", args := [], cwd := none,
          additional_env := none, pipe_stderr := true }
        (fun _ => Except.ok { pid := 22 })).1).job).attached :=
  spec_C9_single_job "win32" { environ := [], job := JobState.init }
    { program := "worker", args := [], cwd := none,
      additional_env := none, pipe_stderr := false }
    { program := "worker2", args := [], cwd := none,
      additional_env := none, pipe_stderr := true }
    (fun _ => Except.ok { pid := 11 }) (fun _ => Except.ok { pid := 22 })
    { pid := 11 } { pid := 22 } (by decide) rfl (fun _ => rfl) (fun _ => rfl)

/-- C10: the long-path rewrite always yields a string beginning with the
extended-length marker `\\?\`, and it is invertible: on a UNC root,
restoring the leading two backslashes in place of `\\?\UNC\` recovers the
absolute path, and otherwise dropping `\\?\` recovers it. -/
theorem spec_C10_rewrite_roundtrip :
    ∀ t : PyStr,
      lp_ext.isPrefixOf (longPathTarget t) = true
      ∧ (if bslash2.isPrefixOf t then bslash2 ++ (longPathTarget t).drop 8 = t
         else (longPathTarget t).drop 4 = t) := by
  intro t
  by_cases h : bslash2.isPrefixOf t = true
  · have hlp : longPathTarget t = lp_unc ++ t.drop 2 := by
      simp [longPathTarget, h]
    rcases List.isPrefixOf_iff_prefix.mp h with ⟨s, hs⟩
    constructor
    · rw [hlp, List.isPrefixOf_iff_prefix]
      have hsplit : lp_unc ++ t.drop 2 = lp_ext ++ (['U', 'N', 'C', '\\'] ++ t.drop 2) := by
        simp [lp_unc, lp_ext]
      rw [hsplit]
      exact List.prefix_append _ _
    · rw [if_pos h, hlp, List.drop_left' (by rfl : lp_unc.length = 8)]
      rw [← hs, List.drop_left' (by rfl : bslash2.length = 2)]
  · have hlp : longPathTarget t = lp_ext ++ t := by
      simp [longPathTarget, h]
    constructor
    · rw [hlp, List.isPrefixOf_iff_prefix]
      exact List.prefix_append _ _
    · rw [if_neg h, hlp, List.drop_left' (by rfl : lp_ext.length = 4)]
